import Mathlib

/-!
Verification of the leaderboard-ranking and coefficient-computation core of the
progress-project bot (src/dao/profile.py, src/dao/base.py, src/utils/coefficient.py,
src/schemas/coefficent.py, src/database/models).

Shallow embedding conventions:
* SQL float columns and Python floats are modelled as `ℚ` (the literal `0.7`
  becomes `7/10`); timestamps are modelled as `Nat`.
* A table is a `List` of rows; SQL `SELECT ... WHERE` is `List.filter`,
  `ORDER BY`/`LIMIT 1` is a deterministic insertion sort by the same key
  (a deterministic refinement of the unspecified SQL tie order), and the
  `GROUP BY user columns` + `MAX(...)` aggregate of the leaderboard query is
  computed per distinct user row (the group key is exactly the user row, so
  under the primary-key uniqueness of `users.telegram_id` this is the same
  relation).
* SQL `=` on a nullable column is three-valued: a NULL never compares equal,
  modelled by `sqlGenderEq`.
* Python exceptions are modelled with `Except`: `PyError` for exceptions the
  coefficient code itself can raise, `StorageFault` for faults of the storage
  layer (SQLAlchemyError); a possible storage fault is injected through an
  explicit `fault : Bool` parameter.
-/

deriving instance DecidableEq for Except

namespace Progress

/-- Gender enum of src/database/models/user.py. -/
inductive Gender
  | male
  | female
deriving DecidableEq

/-- UserLevel enum of src/database/models/user.py. -/
inductive UserLevel
  | first
  | second
  | minkaifa
  | competition
  | start
deriving DecidableEq

/-- ResultType enum of src/database/models/profile.py. -/
inductive ResultType
  | stmTime
  | asapTime
  | weightType
  | repsType
  | distance
  | capacity
  | calories
  | coefficient
deriving DecidableEq

/-- MeasurementUnit enum of src/database/models/profile.py. -/
inductive MeasurementUnit
  | kilograms
  | repsUnit
  | meters
  | seconds
  | minutes
  | caloriesUnit
  | watts
  | coefficientUnit
deriving DecidableEq

/-- ProfileExercise row (src/database/models/profile.py). -/
structure ProfileExercise where
  id : Nat
  name : String
  category_name : String
  unit : MeasurementUnit
  result_type : ResultType
  is_time_based : Bool
  is_basic : Bool
deriving DecidableEq

/-- User row (src/database/models/user.py) together with its one-to-one
biometrics relation: `biometrics_weight` models `user.biometrics.weight`,
where `none` covers both a missing `Biometric` row and a NULL `weight`
column (the two cases are indistinguishable to the code under verification,
which only ever reads `user.biometrics.weight` behind a combined
`not user.biometrics or not user.biometrics.weight` truthiness test). -/
structure User where
  telegram_id : Nat
  username : Option String
  first_name : Option String
  last_name : Option String
  gender : Option Gender
  level : Option UserLevel
  biometrics_weight : Option ℚ
deriving DecidableEq

/-- UserProfileResult row (src/database/models/profile.py). -/
structure UserProfileResult where
  id : Nat
  user_id : Nat
  exercise_id : Nat
  result_value : ℚ
  date : Nat
deriving DecidableEq

/-- The database state seen by one request. -/
structure DB where
  exercises : List ProfileExercise
  users : List User
  results : List UserProfileResult
deriving DecidableEq

/-- BaseDAO.find_one_or_none_by_id specialised to ProfileExercise:
`session.get(model, id)` returns the row with that primary key. -/
def find_exercise_by_id (db : DB) (eid : Nat) : Option ProfileExercise :=
  db.exercises.find? (fun e => decide (e.id = eid))

/-- BaseDAO.find_one_or_none_by_id specialised to User. -/
def find_user_by_id (db : DB) (uid : Nat) : Option User :=
  db.users.find? (fun u => decide (u.telegram_id = uid))

/-- The rows of user_profile_results matching one (user, exercise) pair, the
WHERE clause shared by every query of UserProfileResultDAO and LeaderboardDAO. -/
def results_for (db : DB) (uid eid : Nat) : List UserProfileResult :=
  db.results.filter (fun r => decide (r.user_id = uid ∧ r.exercise_id = eid))

/-- The database extended with one more user row and more result rows, used
to state frame properties about gender partitioning. -/
def extend_db (db : DB) (v : User) (rs : List UserProfileResult) : DB :=
  { exercises := db.exercises, users := db.users ++ [v],
    results := db.results ++ rs }

/-- UserProfileResultDAO.get_history_for_exercise: the user's rows for one
exercise ordered by date descending (newest first). -/
def get_history_for_exercise (db : DB) (uid eid : Nat) : List UserProfileResult :=
  List.insertionSort (fun a b => b.date ≤ a.date) (results_for db uid eid)

/-- UserProfileResultDAO.get_latest_result: `ORDER BY date DESC LIMIT 1`. -/
def get_latest_result (db : DB) (uid eid : Nat) : Option UserProfileResult :=
  (get_history_for_exercise db uid eid).head?

/-- Per-user best as computed by the SQL aggregate
`func.max(UserProfileResult.result_value)` of both leaderboard queries. -/
def bestOf (db : DB) (eid uid : Nat) : Option ℚ :=
  ((results_for db uid eid).map (fun r => r.result_value)).max?

/-- Per-user `func.max(UserProfileResult.date)` aggregate. -/
def latestDateOf (db : DB) (eid uid : Nat) : Option Nat :=
  ((results_for db uid eid).map (fun r => r.date)).max?

/-- The `exercise.is_time_based and exercise.result_type == ResultType.ASAP_TIME`
test of src/dao/profile.py. -/
def isAsap (ex : ProfileExercise) : Bool :=
  ex.is_time_based && decide (ex.result_type = ResultType.asapTime)

/-- One leaderboard entry as built in get_exercise_leaderboard (the display-only
concatenation of first and last name is omitted; `position` is stamped later). -/
structure LeaderboardRow where
  position : Nat
  user_id : Nat
  username : Option String
  gender : Option Gender
  level : Option UserLevel
  value : ℚ
  unit : MeasurementUnit
  latest_date : Option Nat
deriving DecidableEq

/-- The aggregate row of one GROUP BY group of the leaderboard query: `none`
when the user has no result row for the exercise (then the user is not in the
join at all). -/
def lb_entry (db : DB) (eid : Nat) (ex : ProfileExercise) (u : User) :
    Option LeaderboardRow :=
  match bestOf db eid u.telegram_id, latestDateOf db eid u.telegram_id with
  | some b, some d =>
      some { position := 0, user_id := u.telegram_id, username := u.username,
             gender := u.gender, level := u.level, value := b, unit := ex.unit,
             latest_date := some d }
  | _, _ => none

/-- The grouped rows of the leaderboard query: one aggregate row per user row
of the requested gender having at least one result (the join keeps exactly
those users). -/
def lb_entries (db : DB) (eid : Nat) (ex : ProfileExercise) (g : Gender) :
    List LeaderboardRow :=
  db.users.filterMap (fun u =>
    if u.gender = some g then lb_entry db eid ex u else none)

/-- The ORDER BY of the leaderboard query: best value ascending exactly when
the exercise is time based with the ASAP result type, descending otherwise. -/
def lb_sorted (db : DB) (eid : Nat) (ex : ProfileExercise) (g : Gender) :
    List LeaderboardRow :=
  if isAsap ex then
    List.insertionSort (fun a b => a.value ≤ b.value) (lb_entries db eid ex g)
  else
    List.insertionSort (fun a b => b.value ≤ a.value) (lb_entries db eid ex g)

/-- The `for position, row in enumerate(leaderboard_rows, 1)` loop stamping
1-based positions onto the ordered rows. -/
def stampPositions (l : List LeaderboardRow) : List LeaderboardRow :=
  (l.enumFrom 1).map (fun p => { p.2 with position := p.1 })

/-- LeaderboardDAO.get_exercise_leaderboard. `none` models the
`{"exercise": None, "results": []}` return of the exercise-not-found branch. -/
def get_exercise_leaderboard (db : DB) (eid : Nat) (g : Gender) :
    Option (List LeaderboardRow) :=
  match find_exercise_by_id db eid with
  | none => none
  | some ex => some (stampPositions (lb_sorted db eid ex g))

/-- SQL equality on the nullable gender column: a NULL matches nothing. -/
def sqlGenderEq (a b : Option Gender) : Bool :=
  match a, b with
  | some x, some y => decide (x = y)
  | _, _ => false

/-- A storage-layer fault (SQLAlchemyError of the underlying driver). -/
inductive StorageFault
  | fault
deriving DecidableEq

/-- The ranking dictionary built by LeaderboardDAO.get_user_ranking. -/
structure RankingInfo where
  position : Nat
  total_users : Nat
  user_id : Nat
  username : Option String
  gender : Option Gender
  level : Option UserLevel
  best_result : ℚ
  latest_date : Option Nat
deriving DecidableEq

/-- The total-participants count query of get_user_ranking: DISTINCT joined
user ids of the given gender having at least one result for the exercise,
computed as the number of user rows passing the test (the same relation under
the primary-key uniqueness of telegram_id). -/
def total_users_count (db : DB) (eid : Nat) (g0 : Option Gender) : Nat :=
  (db.users.filter (fun u =>
    sqlGenderEq u.gender g0 &&
      !(results_for db u.telegram_id eid).isEmpty)).length

/-- The per-user EXISTS test of the better-results count query: some result
row of the user beats `user_best`, direction depending on the exercise. -/
def better_test (db : DB) (eid : Nat) (ex : ProfileExercise) (user_best : ℚ)
    (u : User) : Bool :=
  if isAsap ex then
    (results_for db u.telegram_id eid).any
      (fun r => decide (r.result_value < user_best))
  else
    (results_for db u.telegram_id eid).any
      (fun r => decide (user_best < r.result_value))

/-- The better-results count query of get_user_ranking. -/
def better_count (db : DB) (eid : Nat) (ex : ProfileExercise)
    (g0 : Option Gender) (user_best : ℚ) : Nat :=
  (db.users.filter (fun u =>
    sqlGenderEq u.gender g0 && better_test db eid ex user_best u)).length

/-- The body of LeaderboardDAO.get_user_ranking (everything inside its `try`).
The user's own best is `MAX(result_value)` with no gender join. -/
def get_user_ranking_body (db : DB) (uid eid : Nat) : Option RankingInfo :=
  match find_exercise_by_id db eid with
  | none => none
  | some ex =>
      match find_user_by_id db uid with
      | none => none
      | some user =>
          match bestOf db eid uid with
          | none => none
          | some user_best =>
              some { position := better_count db eid ex user.gender user_best + 1,
                     total_users := total_users_count db eid user.gender,
                     user_id := uid, username := user.username,
                     gender := user.gender, level := user.level,
                     best_result := user_best,
                     latest_date := latestDateOf db eid uid }

/-- Does user `uid2` hold a best value strictly greater than `c` for the
exercise? Used to state the spec's "count of other users with a strictly
better best value" for higher-is-better exercises. -/
def beatsVal (db : DB) (eid : Nat) (c : ℚ) (uid2 : Nat) : Bool :=
  match bestOf db eid uid2 with
  | some b => decide (c < b)
  | none => false

/-- The queries of get_user_ranking as run against a session that may fault. -/
def run_user_ranking_queries (fault : Bool) (db : DB) (uid eid : Nat) :
    Except StorageFault (Option RankingInfo) :=
  if fault then Except.error StorageFault.fault
  else Except.ok (get_user_ranking_body db uid eid)

/-- LeaderboardDAO.get_user_ranking: the whole body is wrapped in
`try ... except Exception: logger.error(...); return None`, so a storage fault
is converted into the normal return value `None`. -/
def get_user_ranking (fault : Bool) (db : DB) (uid eid : Nat) :
    Option RankingInfo :=
  match run_user_ranking_queries fault db uid eid with
  | Except.error _ => none
  | Except.ok v => v

/-- BaseDAO.add specialised to UserProfileResult: inserts one new row; on a
storage fault of `session.flush()` it rolls back and re-raises. -/
def BaseDAO.add (fault : Bool) (db : DB) (row : UserProfileResult) :
    Except StorageFault (DB × UserProfileResult) :=
  if fault then Except.error StorageFault.fault
  else Except.ok ({ db with results := db.results ++ [row] }, row)

/-- An exception raised by the Python code of src/utils/coefficient.py itself:
`attributeError` models `AttributeError: 'NoneType' object has no attribute`,
`typeError` models `TypeError: float() argument must not be None`,
`multipleResultsFound` models sqlalchemy's MultipleResultsFound raised by
`scalar_one_or_none()` when more than one row matches. -/
inductive PyError
  | attributeError
  | typeError
  | multipleResultsFound
deriving DecidableEq

/-- CoefficientData of src/schemas/coefficent.py (all fields default). -/
structure CoefficientData where
  user : Option User := none
  weight : Option ℚ := none
  coefficient_exercise : Option ProfileExercise := none
  base_exercise : Option ProfileExercise := none
  base_result : Option UserProfileResult := none
  workout_weight : ℚ := 0
deriving DecidableEq

/-- Python truthiness of the optional float weight: None and 0.0 are falsy. -/
def truthyWeight : Option ℚ → Bool
  | none => false
  | some w => !(decide (w = 0))

/-- CoefficientData.is_complete: `all([user, weight, coefficient_exercise,
base_exercise, base_result])` with Python truthiness of each field. -/
def CoefficientData.is_complete (d : CoefficientData) : Bool :=
  d.user.isSome && truthyWeight d.weight && d.coefficient_exercise.isSome
    && d.base_exercise.isSome && d.base_result.isSome

/-- Lower-casing of one character as done by Python's `str.lower()`, restricted
to the ASCII and Russian-alphabet letters the exercise names use. -/
def ruLowerChar (c : Char) : Char :=
  if 0x410 ≤ c.toNat ∧ c.toNat ≤ 0x42F then Char.ofNat (c.toNat + 0x20)
  else if c.toNat = 0x401 then Char.ofNat 0x451
  else c.toLower

/-- Python's `name.lower()` over the supported alphabet. -/
def ruLower (s : String) : String :=
  String.mk (s.data.map ruLowerChar)

/-- Python's substring containment `pat in s`. -/
def containsSub (s pat : String) : Bool :=
  s.data.tails.any (fun t => pat.data.isPrefixOf t)

/-- The assisted/weighted-hang variant marker test of src/utils/coefficient.py:
`"подвесом" in coefficient_exercise.name.lower()`. -/
def hasHangMarker (nm : String) : Bool :=
  containsSub (ruLower nm) "подвесом"

/-- Message of the missing-biometrics failure branch. -/
def msg_need_weight : String :=
  "Для расчёта коэффициента необходимо указать весь тела в биометрии"

/-- Message of the exercise-not-found failure branch. -/
def msg_exercise_not_found : String := "Упражнение не найдено"

/-- Message of the no-base-exercise-configured failure branch. -/
def msg_no_base (nm : String) : String :=
  "Силовое упражнение для " ++ nm ++ " не задано!"

/-- Message of the no-base-result failure branch. -/
def msg_no_base_result (nm : String) : String :=
  "Сперва необходимо указать результат для " ++ nm

/-- Message returned on the ready branch when the data bundle is complete. -/
def msg_ready : String := "Готово к расчёту коэффициента"

/-- BaseDAO.find_one_or_none specialised to ProfileExercise filtered by name:
`scalar_one_or_none()` raises MultipleResultsFound when several rows match. -/
def find_exercise_by_name (db : DB) (nm : String) :
    Except PyError (Option ProfileExercise) :=
  match db.exercises.filter (fun e => decide (e.name = nm)) with
  | [] => Except.ok none
  | [e] => Except.ok (some e)
  | _ => Except.error PyError.multipleResultsFound

/-- get_coefficient_data of src/utils/coefficient.py. `cbe` is the static
COEFFICIENT_BASE_EXERCISES dict of src/constants/sinkler_coefficients.py (the
module is not part of the source tree; the dict is modelled as an abstract
name-to-name map, `cbe nm` being `COEFFICIENT_BASE_EXERCISES.get(nm)`).
Two behaviours of the source are reproduced on purpose:
* in the base-exercise-missing branch the message f-string reads
  `base_exercise.name` while `base_exercise` is None, raising AttributeError
  instead of returning the message;
* `data.base_result` is never assigned, so `data.is_complete()` is False on
  the success path and the returned message (the trailing conditional
  expression binds only to the third tuple component) is None. -/
def get_coefficient_data (cbe : String → Option String) (db : DB)
    (uid eid : Nat) : Except PyError (CoefficientData × Bool × Option String) :=
  let data0 : CoefficientData := {}
  match find_user_by_id db uid with
  | none => Except.ok (data0, false, some msg_need_weight)
  | some user =>
      match user.biometrics_weight with
      | none => Except.ok (data0, false, some msg_need_weight)
      | some w =>
          if w = 0 then Except.ok (data0, false, some msg_need_weight)
          else
            let data1 := { data0 with user := some user, weight := some w }
            match find_exercise_by_id db eid with
            | none =>
                Except.ok ({ data1 with coefficient_exercise := none },
                  false, some msg_exercise_not_found)
            | some cex =>
                let data2 := { data1 with coefficient_exercise := some cex }
                match cbe cex.name with
                | none => Except.ok (data2, false, some (msg_no_base cex.name))
                | some bname =>
                    if bname = "" then
                      Except.ok (data2, false, some (msg_no_base cex.name))
                    else
                      match find_exercise_by_name db bname with
                      | Except.error e => Except.error e
                      | Except.ok obex =>
                          let data3 := { data2 with base_exercise := obex }
                          match obex with
                          | none => Except.error PyError.attributeError
                          | some bex =>
                              match get_latest_result db uid bex.id with
                              | none =>
                                  Except.ok (data3, false,
                                    some (msg_no_base_result bex.name))
                              | some br =>
                                  let base_value := br.result_value
                                  let ww :=
                                    if hasHangMarker cex.name then
                                      max ((base_value + w) * (7/10) - w) 0
                                    else base_value * (7/10)
                                  let data4 :=
                                    { data3 with workout_weight := ww }
                                  Except.ok (data4, true,
                                    if data4.is_complete then some msg_ready
                                    else none)

/-- Round-half-to-even to an integer, the rounding Python's `round` applies. -/
def roundHalfEven (q : ℚ) : ℤ :=
  if q - ⌊q⌋ < 1/2 then ⌊q⌋
  else if 1/2 < q - ⌊q⌋ then ⌊q⌋ + 1
  else if 2 ∣ ⌊q⌋ then ⌊q⌋ else ⌊q⌋ + 1

/-- Python's `round(q, 2)`. -/
def round2 (q : ℚ) : ℚ :=
  (roundHalfEven (q * 100) : ℚ) / 100

/-- calculate_coefficient_value of src/utils/coefficient.py. The function
evaluates `float(data.weight)` before branching on the exercise name, so a
missing weight raises TypeError before a missing exercise can raise
AttributeError. -/
def calculate_coefficient_value (data : CoefficientData) (reps : ℤ) :
    Except PyError ℚ :=
  match data.weight with
  | none => Except.error PyError.typeError
  | some w =>
      match data.coefficient_exercise with
      | none => Except.error PyError.attributeError
      | some cex =>
          let ww := data.workout_weight
          if hasHangMarker cex.name then
            if ww = 0 then Except.ok (round2 reps)
            else Except.ok (round2 (reps * ww))
          else Except.ok (round2 (reps * ww / w))

/-- Male user with recorded body weight 80, used by the concrete scenarios. -/
def userM1 : User :=
  { telegram_id := 1, username := some "u1", first_name := some "A",
    last_name := none, gender := some Gender.male,
    level := some UserLevel.first, biometrics_weight := some 80 }

/-- Second male user. -/
def userM2 : User :=
  { telegram_id := 2, username := some "u2", first_name := some "B",
    last_name := none, gender := some Gender.male,
    level := some UserLevel.second, biometrics_weight := some 90 }

/-- Male user without a recorded body weight. -/
def userNoWeight : User :=
  { telegram_id := 3, username := none, first_name := none, last_name := none,
    gender := some Gender.male, level := none, biometrics_weight := none }

/-- Female user. -/
def userF1 : User :=
  { telegram_id := 4, username := some "f1", first_name := some "C",
    last_name := none, gender := some Gender.female,
    level := some UserLevel.first, biometrics_weight := some 60 }

/-- A time-based exercise with the ASAP (speed) result type. -/
def exRun : ProfileExercise :=
  { id := 1, name := "Бег 1 км", category_name := "Метконы",
    unit := MeasurementUnit.seconds, result_type := ResultType.asapTime,
    is_time_based := true, is_basic := true }

/-- A plain higher-is-better weight exercise. -/
def exSquat : ProfileExercise :=
  { id := 2, name := "Присед", category_name := "Сила",
    unit := MeasurementUnit.kilograms, result_type := ResultType.weightType,
    is_time_based := false, is_basic := true }

/-- Database with one male user holding two results (30 and 45 seconds) for
the ASAP exercise. -/
def dbAsap : DB :=
  { exercises := [exRun], users := [userM1],
    results := [⟨1, 1, 1, 30, 1⟩, ⟨2, 1, 1, 45, 2⟩] }

/-- Database for the squat leaderboard: two male users (bests 100 and 120)
and one female user (best 70). -/
def dbSquat : DB :=
  { exercises := [exSquat], users := [userM1, userM2, userF1],
    results := [⟨1, 1, 2, 90, 1⟩, ⟨2, 1, 2, 100, 2⟩, ⟨3, 2, 2, 120, 3⟩,
                ⟨4, 4, 2, 70, 4⟩] }

/-- A fresh female user (id 9) used for the gender-partition frame check. -/
def userF9 : User :=
  { telegram_id := 9, username := some "f9", first_name := some "D",
    last_name := none, gender := some Gender.female,
    level := some UserLevel.first, biometrics_weight := some 55 }

/-- A squat result of the fresh female user 9. -/
def resF9 : UserProfileResult := ⟨9, 9, 2, 200, 9⟩

/-- The first row of the male squat leaderboard of dbSquat. -/
def rowU2 : LeaderboardRow :=
  { position := 1, user_id := 2, username := some "u2",
    gender := some Gender.male, level := some UserLevel.second, value := 120,
    unit := MeasurementUnit.kilograms, latest_date := some 3 }

/-- The male squat leaderboard computed from dbSquat. -/
def lbSquatM : List LeaderboardRow :=
  [{ position := 1, user_id := 2, username := some "u2",
     gender := some Gender.male, level := some UserLevel.second, value := 120,
     unit := MeasurementUnit.kilograms, latest_date := some 3 },
   { position := 2, user_id := 1, username := some "u1",
     gender := some Gender.male, level := some UserLevel.first, value := 100,
     unit := MeasurementUnit.kilograms, latest_date := some 2 }]

/-- The second row of the male squat leaderboard of dbSquat. -/
def rowU1 : LeaderboardRow :=
  { position := 2, user_id := 1, username := some "u1",
    gender := some Gender.male, level := some UserLevel.first, value := 100,
    unit := MeasurementUnit.kilograms, latest_date := some 2 }

/-- The ranking get_user_ranking computes for user 1 on exercise 2 of
dbSquat. -/
def rkU1 : RankingInfo :=
  { position := 2, total_users := 2, user_id := 1, username := some "u1",
    gender := some Gender.male, level := some UserLevel.first,
    best_result := 100, latest_date := some 2 }

/-- The male leaderboard of the ASAP exercise computed from dbAsap. -/
def lbAsapM : List LeaderboardRow :=
  [{ position := 1, user_id := 1, username := some "u1",
     gender := some Gender.male, level := some UserLevel.first, value := 45,
     unit := MeasurementUnit.seconds, latest_date := some 2 }]

/-- A new squat result submitted by user 1. -/
def rNew : UserProfileResult := ⟨5, 1, 2, 110, 9⟩

/-- The dbSquat state after `BaseDAO.add` inserted rNew. -/
def dbSquatAfter : DB :=
  { exercises := [exSquat], users := [userM1, userM2, userF1],
    results := [⟨1, 1, 2, 90, 1⟩, ⟨2, 1, 2, 100, 2⟩, ⟨3, 2, 2, 120, 3⟩,
                ⟨4, 4, 2, 70, 4⟩, rNew] }

/-- A coefficient exercise whose name carries no assisted-variant marker. -/
def exCoefPull : ProfileExercise :=
  { id := 10, name := "Тяга", category_name := "Сила",
    unit := MeasurementUnit.coefficientUnit,
    result_type := ResultType.coefficient,
    is_time_based := false, is_basic := false }

/-- A coefficient exercise mapped to a present base exercise. -/
def exCoefSnatch : ProfileExercise :=
  { id := 11, name := "Рывок", category_name := "Сила",
    unit := MeasurementUnit.coefficientUnit,
    result_type := ResultType.coefficient,
    is_time_based := false, is_basic := false }

/-- A coefficient exercise absent from the base-exercise mapping. -/
def exCoefSwing : ProfileExercise :=
  { id := 12, name := "Мах", category_name := "Сила",
    unit := MeasurementUnit.coefficientUnit,
    result_type := ResultType.coefficient,
    is_time_based := false, is_basic := false }

/-- The base exercise of exCoefSnatch. -/
def exSed : ProfileExercise :=
  { id := 21, name := "Сед", category_name := "Сила",
    unit := MeasurementUnit.kilograms, result_type := ResultType.weightType,
    is_time_based := false, is_basic := true }

/-- Concrete base-exercise mapping: Тяга resolves to the (possibly absent)
Присед, Рывок resolves to Сед. -/
def cbe1 : String → Option String := fun nm =>
  if nm = "Тяга" then some "Присед"
  else if nm = "Рывок" then some "Сед" else none

/-- The stored base result (value 100) of the coefficient success scenario. -/
def resCoefOk : UserProfileResult := ⟨1, 1, 2, 100, 5⟩

/-- Database on which coefficient resolution reaches the success branch for
exercise 10 (base Присед present with a result of 100). -/
def dbCoefOk : DB :=
  { exercises := [exCoefPull, exSquat], users := [userM1],
    results := [resCoefOk] }

/-- The mapping used with dbCoefOk: Тяга resolves to the present Присед. -/
def cbeOk : String → Option String := fun nm =>
  if nm = "Тяга" then some "Присед" else none

/-- The CoefficientData bundle produced by `get_coefficient_data cbeOk dbCoefOk
1 10` (note: `base_result` stays none because the source never assigns it; the
workout weight 100 * 0.7 is kept unevaluated so that the bundle is
definitionally the one the function builds). -/
def dataCoefOk : CoefficientData :=
  { user := some userM1, weight := some 80,
    coefficient_exercise := some exCoefPull, base_exercise := some exSquat,
    base_result := none, workout_weight := 100 * (7/10) }

/-- Database where the mapped base exercise Присед is absent from the
exercise catalog. -/
def dbCoefNoCatalog : DB :=
  { exercises := [exCoefPull], users := [userM1], results := [] }

/-- Database exercising every failure branch of coefficient resolution:
user 3 has no recorded weight, exercise 99 does not exist, Мах has no mapped
base exercise, Тяга maps to the absent Присед, and Рывок maps to the present
Сед for which user 1 has no result. -/
def dbC4 : DB :=
  { exercises := [exCoefPull, exCoefSnatch, exCoefSwing, exSed],
    users := [userM1, userNoWeight], results := [] }

/-- An assisted-variant coefficient exercise (name contains the marker). -/
def exCoefHang : ProfileExercise :=
  { id := 13, name := "Подтягивания с подвесом", category_name := "Сила",
    unit := MeasurementUnit.coefficientUnit,
    result_type := ResultType.coefficient,
    is_time_based := false, is_basic := false }

/-- C1: the claim says each leaderboard user's best is the maximum of their
recorded values except for time-based ASAP exercises, where it should be the
minimum. The code aggregates with `func.max(UserProfileResult.result_value)`
unconditionally, so on an ASAP exercise where user 1 recorded 30 and 45
seconds the leaderboard carries 45 (the user's worst time) as the best,
although the minimum of the recorded values is 30. -/
theorem C1_leaderboard_best_is_max_evaluation :
    (get_exercise_leaderboard dbAsap 1 Gender.male).map
        (fun l => l.map (fun r => (r.user_id, r.value))) =
      some [(1, (45 : ℚ))] ∧
    ((results_for dbAsap 1 1).map (fun r => r.result_value)).min? =
      some (30 : ℚ) ∧
    isAsap exRun = true := by decide

/-- C2 counterexample: on the ASAP exercise of dbAsap there is exactly one
user (user 1, bests 30 and 45 seconds), so the claim demands ranking position
1 + 0 = 1, equal to the leaderboard position 1; but get_user_ranking compares
every stored row against the user's own MAX value and counts the user
themselves (their row 30 beats their own 45), returning position 2. -/
theorem C2_counterexample :
    (get_user_ranking false dbAsap 1 1).map (fun r => r.position) = some 2 ∧
    (get_exercise_leaderboard dbAsap 1 Gender.male).map
        (fun l => l.map (fun r => (r.user_id, r.position))) =
      some [(1, 1)] ∧
    dbAsap.users.length = 1 := by decide

/-- C3: coefficient resolution is not total. On dbCoefNoCatalog (the mapped
base exercise Присед is absent from the catalog) it raises AttributeError (the
failure message f-string reads `base_exercise.name` while `base_exercise` is
None) instead of returning a failure reason; and on the fully successful
dbCoefOk it returns ready=True with message None and an incomplete bundle
(`data.base_result` is never assigned, so `is_complete()` is False and the
trailing conditional expression yields None as the message). -/
theorem C3_resolution_not_total :
    get_coefficient_data cbe1 dbCoefNoCatalog 1 10 =
      Except.error PyError.attributeError ∧
    (get_coefficient_data cbeOk dbCoefOk 1 10).map
        (fun t => (t.2.1, t.2.2, t.1.base_result, t.1.is_complete)) =
      Except.ok (true, none, none, false) := by decide

/-- C4: the first three preconditions (recorded body weight, coefficient
exercise present, base mapping configured) and the fifth (a base result
recorded) short-circuit in order with their distinct messages, but the fourth
precondition (base exercise present in the catalog) raises AttributeError
instead of returning the base-exercise-missing reason. -/
theorem C4_precondition_protocol :
    (get_coefficient_data cbe1 dbC4 3 10).map (fun t => (t.2.1, t.2.2)) =
      Except.ok (false, some msg_need_weight) ∧
    (get_coefficient_data cbe1 dbC4 1 99).map (fun t => (t.2.1, t.2.2)) =
      Except.ok (false, some msg_exercise_not_found) ∧
    (get_coefficient_data cbe1 dbC4 1 12).map (fun t => (t.2.1, t.2.2)) =
      Except.ok (false, some (msg_no_base "Мах")) ∧
    get_coefficient_data cbe1 dbC4 1 10 =
      Except.error PyError.attributeError ∧
    (get_coefficient_data cbe1 dbC4 1 11).map (fun t => (t.2.1, t.2.2)) =
      Except.ok (false, some (msg_no_base_result "Сед")) := by decide

/-- C6 counterexample: a storage fault during get_user_ranking is caught by
its catch-all handler and converted into the normal return value None, even
though the same call without a fault returns a ranking. -/
theorem C6_counterexample :
    run_user_ranking_queries true dbAsap 1 1 =
      Except.error StorageFault.fault ∧
    get_user_ranking true dbAsap 1 1 = none ∧
    get_user_ranking false dbAsap 1 1 ≠ none := by decide

/-- C6 amended: the repository layer (BaseDAO.add) propagates a storage fault
as a raised error, but LeaderboardDAO.get_user_ranking wraps its whole body in
`except Exception: return None` and therefore swallows every storage fault
into the normal return value None. -/
theorem C6_amended_fault_handling :
    (∀ (db : DB) (row : UserProfileResult),
      BaseDAO.add true db row = Except.error StorageFault.fault) ∧
    (∀ (db : DB) (uid eid : Nat), get_user_ranking true db uid eid = none) :=
  ⟨fun _ _ => rfl, fun _ _ _ => rfl⟩

/-- C10: whenever get_coefficient_data returns with the ready flag set, the
weight captured in the bundle is a nonzero rational (so the division by
user_weight in calculate_coefficient_value is well defined and the function
returns a value for every repetition count), and a missing or zero recorded
weight short-circuits into the missing-biometrics failure. -/
theorem C10_ready_weight_nonzero :
    (∀ (cbe : String → Option String) (db : DB) (uid eid : Nat)
        (data : CoefficientData) (msg : Option String),
      get_coefficient_data cbe db uid eid = Except.ok (data, true, msg) →
      ∃ w : ℚ, data.weight = some w ∧ w ≠ 0 ∧
        ∀ reps : ℤ, ∃ q : ℚ,
          calculate_coefficient_value data reps = Except.ok q) ∧
    (∀ (cbe : String → Option String) (db : DB) (uid eid : Nat) (user : User),
      find_user_by_id db uid = some user →
      user.biometrics_weight = none ∨ user.biometrics_weight = some 0 →
      get_coefficient_data cbe db uid eid =
        Except.ok ({}, false, some msg_need_weight)) := by
  constructor
  · intro cbe db uid eid data msg h
    simp only [get_coefficient_data] at h
    split at h
    · exact absurd h (by simp)
    split at h
    · exact absurd h (by simp)
    split at h
    · exact absurd h (by simp)
    split at h
    · exact absurd h (by simp)
    split at h
    · exact absurd h (by simp)
    split at h
    · exact absurd h (by simp)
    split at h
    · exact absurd h (by simp)
    split at h
    · exact absurd h (by simp)
    split at h
    · exact absurd h (by simp)
    simp only [Except.ok.injEq, Prod.mk.injEq] at h
    obtain ⟨hd, -, -⟩ := h
    subst hd
    refine ⟨_, rfl, by assumption, fun reps => ?_⟩
    simp only [calculate_coefficient_value]
    split
    · split
      · exact ⟨_, rfl⟩
      · exact ⟨_, rfl⟩
    · exact ⟨_, rfl⟩
  · intro cbe db uid eid user hu hw
    rcases hw with hw | hw <;> simp [get_coefficient_data, hu, hw]

/-- C10 witness: on the concrete successful resolution of dbCoefOk the bundle
carries the nonzero weight 80, and on dbC4 the weightless user 3 gets the
missing-biometrics failure. -/
theorem C10_witness :
    (∃ w : ℚ, dataCoefOk.weight = some w ∧ w ≠ 0 ∧
      ∀ reps : ℤ, ∃ q : ℚ,
        calculate_coefficient_value dataCoefOk reps = Except.ok q) ∧
    get_coefficient_data cbe1 dbC4 3 10 =
      Except.ok ({}, false, some msg_need_weight) :=
  ⟨C10_ready_weight_nonzero.1 cbeOk dbCoefOk 1 10 dataCoefOk none rfl,
   C10_ready_weight_nonzero.2 cbe1 dbC4 3 10 userNoWeight (by decide)
     (Or.inl (by decide))⟩

/-- C5: on a ready resolution the workout weight is
`max(0, (base_value + user_weight) * 0.7 - user_weight)` for an
assisted-variant exercise name and `base_value * 0.7` otherwise; and for any
repetition count calculate_coefficient_value returns the 2-decimal rounding of
`reps` (assisted, zero workout weight), `reps * workout_weight` (assisted,
nonzero), or `reps * workout_weight / user_weight` (otherwise); on the
concrete example (base 100, weight 80, reps 5, non-assisted) the workout
weight is 70 and the coefficient is 4.38. -/
theorem C5_workout_weight_and_coefficient :
    (∀ (cbe : String → Option String) (db : DB) (uid eid : Nat)
        (data : CoefficientData) (msg : Option String) (cex : ProfileExercise)
        (w : ℚ) (bex : ProfileExercise) (br : UserProfileResult),
      get_coefficient_data cbe db uid eid = Except.ok (data, true, msg) →
      data.coefficient_exercise = some cex → data.weight = some w →
      data.base_exercise = some bex →
      get_latest_result db uid bex.id = some br →
      data.workout_weight =
        (if hasHangMarker cex.name then
          max 0 ((br.result_value + w) * (7/10) - w)
        else br.result_value * (7/10))) ∧
    (∀ (data : CoefficientData) (cex : ProfileExercise) (w : ℚ) (reps : ℤ),
      data.coefficient_exercise = some cex → data.weight = some w →
      calculate_coefficient_value data reps =
        Except.ok (round2 (if hasHangMarker cex.name then
            (if data.workout_weight = 0 then (reps : ℚ)
             else reps * data.workout_weight)
          else reps * data.workout_weight / w))) ∧
    (dataCoefOk.workout_weight = 70 ∧
      calculate_coefficient_value dataCoefOk 5 = Except.ok (219/50)) := by
  refine ⟨?_, ?_, by norm_num [dataCoefOk], ?_⟩
  · intro cbe db uid eid data msg cex w bex br h hcex hw hbex hbr
    simp only [get_coefficient_data] at h
    split at h
    · exact absurd h (by simp)
    split at h
    · exact absurd h (by simp)
    split at h
    · exact absurd h (by simp)
    split at h
    · exact absurd h (by simp)
    split at h
    · exact absurd h (by simp)
    split at h
    · exact absurd h (by simp)
    split at h
    · exact absurd h (by simp)
    next obex heqname =>
    split at h
    · exact absurd h (by simp)
    next bex0 =>
    split at h
    · exact absurd h (by simp)
    next br0 hbr0 =>
    simp only [Except.ok.injEq, Prod.mk.injEq] at h
    obtain ⟨hd, -, -⟩ := h
    subst hd
    simp only at hcex hw hbex
    obtain rfl := (Option.some.inj hcex).symm
    obtain rfl := (Option.some.inj hw).symm
    obtain rfl := (Option.some.inj hbex).symm
    rw [hbr0] at hbr
    obtain rfl := (Option.some.inj hbr).symm
    by_cases hm : hasHangMarker cex.name <;>
      simp only [hm, if_true, if_false, max_comm]
  · intro data cex w reps hcex hw
    simp only [calculate_coefficient_value, hcex, hw]
    by_cases hm : hasHangMarker cex.name
    · by_cases hz : data.workout_weight = 0 <;> simp [hm, hz]
    · simp [hm]
  · have hm : hasHangMarker exCoefPull.name = false := by decide
    simp only [calculate_coefficient_value, dataCoefOk, hm, Bool.false_eq_true,
      if_false]
    norm_num [round2, roundHalfEven]

/-- C5 witness: the general parts of C5 applied to the concrete successful
resolution on dbCoefOk (non-assisted exercise Тяга, base value 100, user
weight 80, reps 5). -/
theorem C5_witness :
    dataCoefOk.workout_weight =
      (if hasHangMarker exCoefPull.name then
        max 0 ((resCoefOk.result_value + 80) * (7/10) - 80)
      else resCoefOk.result_value * (7/10)) ∧
    calculate_coefficient_value dataCoefOk 5 =
      Except.ok (round2 (if hasHangMarker exCoefPull.name then
          (if dataCoefOk.workout_weight = 0 then (5 : ℚ)
           else 5 * dataCoefOk.workout_weight)
        else 5 * dataCoefOk.workout_weight / 80)) :=
  ⟨C5_workout_weight_and_coefficient.1 cbeOk dbCoefOk 1 10 dataCoefOk none
      exCoefPull 80 exSquat resCoefOk rfl rfl rfl rfl (by decide),
   C5_workout_weight_and_coefficient.2.1 dataCoefOk exCoefPull 80 5 rfl rfl⟩

/-- C9: a successful BaseDAO.add only inserts one new row: the history of the
submitted (user, exercise) pair gains exactly that row (one more element, a
permutation of the old history plus the new row, every old row still present),
stays ordered newest first, and the history of every other pair is unchanged. -/
theorem C9_submit_appends (db db2 : DB) (r r2 : UserProfileResult)
    (h : BaseDAO.add false db r = Except.ok (db2, r2)) :
    (get_history_for_exercise db2 r.user_id r.exercise_id).length =
      (get_history_for_exercise db r.user_id r.exercise_id).length + 1 ∧
    (get_history_for_exercise db2 r.user_id r.exercise_id).Perm
      (r :: get_history_for_exercise db r.user_id r.exercise_id) ∧
    (∀ x ∈ get_history_for_exercise db r.user_id r.exercise_id,
      x ∈ get_history_for_exercise db2 r.user_id r.exercise_id) ∧
    List.Sorted (fun a b => b.date ≤ a.date)
      (get_history_for_exercise db2 r.user_id r.exercise_id) ∧
    (∀ uid eid : Nat, ¬(uid = r.user_id ∧ eid = r.exercise_id) →
      get_history_for_exercise db2 uid eid =
        get_history_for_exercise db uid eid) := by
  haveI : IsTotal UserProfileResult (fun a b => b.date ≤ a.date) :=
    ⟨fun a b => Nat.le_total b.date a.date⟩
  haveI : IsTrans UserProfileResult (fun a b => b.date ≤ a.date) :=
    ⟨fun _ _ _ hab hbc => Nat.le_trans hbc hab⟩
  simp only [BaseDAO.add, Bool.false_eq_true, if_false, Except.ok.injEq,
    Prod.mk.injEq] at h
  obtain ⟨hdb2, -⟩ := h
  subst hdb2
  have hmain : results_for { db with results := db.results ++ [r] }
      r.user_id r.exercise_id =
      results_for db r.user_id r.exercise_id ++ [r] := by
    simp [results_for, List.filter_append]
  have hperm : (get_history_for_exercise { db with results := db.results ++ [r] }
      r.user_id r.exercise_id).Perm
      (r :: get_history_for_exercise db r.user_id r.exercise_id) := by
    unfold get_history_for_exercise
    rw [hmain]
    exact ((List.perm_insertionSort _ _).trans
      (List.perm_append_singleton r _)).trans
      (List.Perm.cons r (List.perm_insertionSort _ _).symm)
  refine ⟨?_, hperm, ?_, ?_, ?_⟩
  · unfold get_history_for_exercise
    rw [List.length_insertionSort, hmain, List.length_append,
      List.length_insertionSort]
    rfl
  · intro x hx
    exact hperm.symm.mem_iff.mp (List.mem_cons_of_mem r hx)
  · exact List.sorted_insertionSort _ _
  · intro uid eid hne
    have hcond : ¬(r.user_id = uid ∧ r.exercise_id = eid) := by
      rintro ⟨h1, h2⟩
      exact hne ⟨h1.symm, h2.symm⟩
    unfold get_history_for_exercise
    congr 1
    simp [results_for, List.filter_append, hcond]

/-- C9 witness: submitting the concrete result rNew for (user 1, exercise 2)
on dbSquat yields a history one longer that is the old history plus rNew. -/
theorem C9_witness :
    (get_history_for_exercise dbSquatAfter rNew.user_id
        rNew.exercise_id).length =
      (get_history_for_exercise dbSquat rNew.user_id
        rNew.exercise_id).length + 1 ∧
    (get_history_for_exercise dbSquatAfter rNew.user_id
        rNew.exercise_id).Perm
      (rNew :: get_history_for_exercise dbSquat rNew.user_id
        rNew.exercise_id) :=
  ⟨(C9_submit_appends dbSquat dbSquatAfter rNew rNew rfl).1,
   (C9_submit_appends dbSquat dbSquatAfter rNew rNew rfl).2.1⟩

/-- Stamping positions does not change which row data appears: positions
become 1..n. -/
theorem stampPositions_map_position (l : List LeaderboardRow) :
    (stampPositions l).map (fun row => row.position) =
      List.range' 1 l.length := by
  unfold stampPositions
  rw [List.map_map]
  have hc : ((fun row => row.position) ∘ fun p : Nat × LeaderboardRow =>
      { p.2 with position := p.1 }) = Prod.fst := by
    funext p; rfl
  rw [hc, List.enumFrom_map_fst]

/-- Stamping positions preserves the sequence of best values. -/
theorem stampPositions_map_value (l : List LeaderboardRow) :
    (stampPositions l).map (fun row => row.value) =
      l.map (fun row => row.value) := by
  unfold stampPositions
  rw [List.map_map]
  have hc : ((fun row => row.value) ∘ fun p : Nat × LeaderboardRow =>
      { p.2 with position := p.1 }) = (fun row => row.value) ∘ Prod.snd := by
    funext p; rfl
  rw [hc, ← List.map_map, List.enumFrom_map_snd]

/-- Stamping positions preserves length. -/
theorem stampPositions_length (l : List LeaderboardRow) :
    (stampPositions l).length = l.length := by
  unfold stampPositions
  rw [List.length_map, List.enumFrom_length]

/-- The sorted leaderboard rows are ascending in value for ASAP exercises. -/
theorem lb_sorted_value_asc (db : DB) (eid : Nat) (ex : ProfileExercise)
    (g : Gender) (h : isAsap ex = true) :
    ((lb_sorted db eid ex g).map (fun row => row.value)).Sorted (· ≤ ·) := by
  haveI : IsTotal LeaderboardRow (fun a b => a.value ≤ b.value) :=
    ⟨fun a b => le_total a.value b.value⟩
  haveI : IsTrans LeaderboardRow (fun a b => a.value ≤ b.value) :=
    ⟨fun _ _ _ hab hbc => le_trans hab hbc⟩
  unfold lb_sorted
  rw [if_pos h]
  have hs := List.sorted_insertionSort (fun a b : LeaderboardRow =>
    a.value ≤ b.value) (lb_entries db eid ex g)
  exact @List.Pairwise.map ℚ LeaderboardRow
    (fun a b => a.value ≤ b.value)
    (List.insertionSort (fun a b => a.value ≤ b.value) (lb_entries db eid ex g))
    (fun a b => a ≤ b) (fun row => row.value) (fun _ _ hab => hab) hs

/-- The sorted leaderboard rows are descending in value for all non-ASAP
sorting (the else branch of the ORDER BY). -/
theorem lb_sorted_value_desc (db : DB) (eid : Nat) (ex : ProfileExercise)
    (g : Gender) (h : isAsap ex = false) :
    ((lb_sorted db eid ex g).map (fun row => row.value)).Sorted
      (fun a b => b ≤ a) := by
  haveI : IsTotal LeaderboardRow (fun a b => b.value ≤ a.value) :=
    ⟨fun a b => le_total b.value a.value⟩
  haveI : IsTrans LeaderboardRow (fun a b => b.value ≤ a.value) :=
    ⟨fun _ _ _ hab hbc => le_trans hbc hab⟩
  unfold lb_sorted
  rw [if_neg (by simp [h])]
  have hs := List.sorted_insertionSort (fun a b : LeaderboardRow =>
    b.value ≤ a.value) (lb_entries db eid ex g)
  exact @List.Pairwise.map ℚ LeaderboardRow
    (fun a b => b.value ≤ a.value)
    (List.insertionSort (fun a b => b.value ≤ a.value) (lb_entries db eid ex g))
    (fun a b => b ≤ a) (fun row => row.value) (fun _ _ hab => hab) hs

/-- C7: a computed leaderboard carries 1-based sequential positions 1..n with
no gaps or shared positions, and its value column is non-decreasing for
time-based ASAP (speed) exercises and non-increasing otherwise (in particular
for every non-speed exercise). -/
theorem C7_leaderboard_order_and_positions (db : DB) (eid : Nat) (g : Gender)
    (ex : ProfileExercise) (l : List LeaderboardRow)
    (hex : find_exercise_by_id db eid = some ex)
    (hl : get_exercise_leaderboard db eid g = some l) :
    l.map (fun row => row.position) = List.range' 1 l.length ∧
    (isAsap ex = true → (l.map (fun row => row.value)).Sorted (· ≤ ·)) ∧
    (isAsap ex = false →
      (l.map (fun row => row.value)).Sorted (fun a b => b ≤ a)) := by
  have hl' : l = stampPositions (lb_sorted db eid ex g) := by
    simp only [get_exercise_leaderboard, hex] at hl
    exact (Option.some.inj hl).symm
  subst hl'
  refine ⟨?_, ?_, ?_⟩
  · rw [stampPositions_map_position, stampPositions_length]
  · intro h
    rw [stampPositions_map_value]
    exact lb_sorted_value_asc db eid ex g h
  · intro h
    rw [stampPositions_map_value]
    exact lb_sorted_value_desc db eid ex g h

/-- C7 witness: the concrete squat leaderboard (descending, positions 1, 2)
and ASAP leaderboard (ascending) instantiating C7. -/
theorem C7_witness :
    (lbSquatM.map (fun row => row.position) =
      List.range' 1 lbSquatM.length ∧
    (isAsap exSquat = false →
      (lbSquatM.map (fun row => row.value)).Sorted (fun a b => b ≤ a))) ∧
    (isAsap exRun = true →
      (lbAsapM.map (fun row => row.value)).Sorted (· ≤ ·)) :=
  ⟨⟨(C7_leaderboard_order_and_positions dbSquat 2 Gender.male exSquat lbSquatM
        (by decide) (by decide)).1,
    (C7_leaderboard_order_and_positions dbSquat 2 Gender.male exSquat lbSquatM
        (by decide) (by decide)).2.2⟩,
   (C7_leaderboard_order_and_positions dbAsap 1 Gender.male exRun lbAsapM
        (by decide) (by decide)).2.1⟩

/-- Elements of the sorted leaderboard are exactly the grouped entries. -/
theorem lb_sorted_perm (db : DB) (eid : Nat) (ex : ProfileExercise)
    (g : Gender) : (lb_sorted db eid ex g).Perm (lb_entries db eid ex g) := by
  unfold lb_sorted
  split <;> exact List.perm_insertionSort _ _

/-- A member of the stamped leaderboard is a grouped row with some position. -/
theorem mem_stampPositions {l : List LeaderboardRow} {row : LeaderboardRow}
    (h : row ∈ stampPositions l) :
    ∃ e ∈ l, ∃ n : Nat, row = { e with position := n } := by
  unfold stampPositions at h
  obtain ⟨p, hp, hrow⟩ := List.mem_map.mp h
  refine ⟨p.2, ?_, p.1, hrow.symm⟩
  have hm := List.mem_map_of_mem Prod.snd hp
  rwa [List.enumFrom_map_snd] at hm

/-- A grouped leaderboard entry comes from a user row of the requested
gender. -/
theorem mem_lb_entries {db : DB} {eid : Nat} {ex : ProfileExercise}
    {g : Gender} {e : LeaderboardRow} (he : e ∈ lb_entries db eid ex g) :
    ∃ u ∈ db.users, u.gender = some g ∧ lb_entry db eid ex u = some e := by
  obtain ⟨u, hu, hfe⟩ := List.mem_filterMap.mp he
  by_cases hg : u.gender = some g
  · refine ⟨u, hu, hg, ?_⟩
    rwa [if_pos hg] at hfe
  · rw [if_neg hg] at hfe
    cases hfe

/-- The fields a grouped entry carries: the user's id and gender, and the
MAX-aggregated best value. -/
theorem lb_entry_fields {db : DB} {eid : Nat} {ex : ProfileExercise}
    {u : User} {e : LeaderboardRow} (h : lb_entry db eid ex u = some e) :
    e.user_id = u.telegram_id ∧ e.gender = u.gender ∧
    bestOf db eid u.telegram_id = some e.value := by
  unfold lb_entry at h
  split at h
  · obtain rfl := (Option.some.inj h).symm
    exact ⟨rfl, rfl, by assumption⟩
  · cases h

/-- Appending result rows that all belong to one fresh user does not change
any other user's result set. -/
theorem results_for_ext (db : DB) (v : User) (rs : List UserProfileResult)
    (hrs : ∀ r' ∈ rs, r'.user_id = v.telegram_id) (t eid : Nat)
    (ht : t ≠ v.telegram_id) :
    results_for (extend_db db v rs) t eid = results_for db t eid := by
  unfold results_for
  show (db.results ++ rs).filter _ = _
  rw [List.filter_append]
  have hnil : rs.filter
      (fun r => decide (r.user_id = t ∧ r.exercise_id = eid)) = [] := by
    rw [List.filter_eq_nil_iff]
    intro r hr
    simp only [decide_eq_true_eq, not_and]
    intro h1
    exact absurd (h1 ▸ hrs r hr) ht
  rw [hnil, List.append_nil]

/-- Adding a user of another gender (with only their own results) leaves the
grouped leaderboard entries unchanged. -/
theorem lb_entries_ext (db : DB) (eid : Nat) (ex : ProfileExercise)
    (g : Gender) (v : User) (rs : List UserProfileResult)
    (hg : ¬(v.gender = some g))
    (hfresh : ∀ u ∈ db.users, u.telegram_id ≠ v.telegram_id)
    (hrs : ∀ r' ∈ rs, r'.user_id = v.telegram_id) :
    lb_entries (extend_db db v rs) eid ex g = lb_entries db eid ex g := by
  unfold lb_entries
  show (db.users ++ [v]).filterMap _ = _
  rw [List.filterMap_append]
  have hnil : [v].filterMap (fun u => if u.gender = some g then
      lb_entry (extend_db db v rs) eid ex u else none) = [] := by
    simp [hg]
  rw [hnil, List.append_nil]
  refine List.filterMap_congr (fun u hu => ?_)
  by_cases hgu : u.gender = some g
  · rw [if_pos hgu, if_pos hgu]
    unfold lb_entry bestOf latestDateOf
    rw [results_for_ext db v rs hrs u.telegram_id eid (hfresh u hu)]
  · rw [if_neg hgu, if_neg hgu]

/-- The better-results count ignores the added other-gender user. -/
theorem better_count_ext (db : DB) (eid : Nat) (ex : ProfileExercise)
    (g0 : Option Gender) (v : User) (rs : List UserProfileResult)
    (hvg : sqlGenderEq v.gender g0 = false)
    (hfresh : ∀ u ∈ db.users, u.telegram_id ≠ v.telegram_id)
    (hrs : ∀ r' ∈ rs, r'.user_id = v.telegram_id) (ub : ℚ) :
    better_count (extend_db db v rs) eid ex g0 ub =
      better_count db eid ex g0 ub := by
  unfold better_count
  show ((db.users ++ [v]).filter _).length = _
  rw [List.filter_append]
  have hnil : [v].filter (fun u => sqlGenderEq u.gender g0 &&
      better_test (extend_db db v rs) eid ex ub u) = [] := by
    simp [hvg]
  rw [hnil, List.append_nil]
  congr 1
  refine List.filter_congr (fun u hu => ?_)
  unfold better_test
  rw [results_for_ext db v rs hrs u.telegram_id eid (hfresh u hu)]

/-- The total-participants count ignores the added other-gender user. -/
theorem total_users_count_ext (db : DB) (eid : Nat) (g0 : Option Gender)
    (v : User) (rs : List UserProfileResult)
    (hvg : sqlGenderEq v.gender g0 = false)
    (hfresh : ∀ u ∈ db.users, u.telegram_id ≠ v.telegram_id)
    (hrs : ∀ r' ∈ rs, r'.user_id = v.telegram_id) :
    total_users_count (extend_db db v rs) eid g0 = total_users_count db eid g0 := by
  unfold total_users_count
  show ((db.users ++ [v]).filter _).length = _
  rw [List.filter_append]
  have hnil : [v].filter (fun u => sqlGenderEq u.gender g0 &&
      !(results_for (extend_db db v rs) u.telegram_id eid).isEmpty) = [] := by
    simp [hvg]
  rw [hnil, List.append_nil]
  congr 1
  refine List.filter_congr (fun u hu => ?_)
  rw [results_for_ext db v rs hrs u.telegram_id eid (hfresh u hu)]

/-- C8: leaderboards and rankings never compare across genders. Every entry
of a leaderboard requested for a gender belongs to a stored user of that
gender; and adding a user of a different gender together with any number of
their results changes neither the leaderboard for the original gender nor an
existing user's ranking (whose counts range only over the user's own
gender). -/
theorem C8_gender_partition :
    (∀ (db : DB) (eid : Nat) (g : Gender) (l : List LeaderboardRow)
        (row : LeaderboardRow),
      get_exercise_leaderboard db eid g = some l → row ∈ l →
      row.gender = some g ∧
        ∃ u ∈ db.users, u.telegram_id = row.user_id ∧ u.gender = some g) ∧
    (∀ (db : DB) (eid : Nat) (g : Gender) (v : User)
        (rs : List UserProfileResult),
      ¬(v.gender = some g) →
      (∀ u ∈ db.users, u.telegram_id ≠ v.telegram_id) →
      (∀ r' ∈ rs, r'.user_id = v.telegram_id) →
      get_exercise_leaderboard (extend_db db v rs) eid g =
        get_exercise_leaderboard db eid g) ∧
    (∀ (db : DB) (uid eid : Nat) (user v : User)
        (rs : List UserProfileResult),
      find_user_by_id db uid = some user →
      sqlGenderEq v.gender user.gender = false →
      (∀ u ∈ db.users, u.telegram_id ≠ v.telegram_id) →
      (∀ r' ∈ rs, r'.user_id = v.telegram_id) →
      get_user_ranking false (extend_db db v rs) uid eid =
        get_user_ranking false db uid eid) := by
  refine ⟨?_, ?_, ?_⟩
  · intro db eid g l row hl hrow
    unfold get_exercise_leaderboard at hl
    split at hl
    · exact absurd hl (by simp)
    obtain rfl := (Option.some.inj hl).symm
    obtain ⟨e, he, n, rfl⟩ := mem_stampPositions hrow
    have he2 := (lb_sorted_perm _ _ _ _).mem_iff.mp he
    obtain ⟨u, hu, hg, hentry⟩ := mem_lb_entries he2
    obtain ⟨hid, hgen, -⟩ := lb_entry_fields hentry
    exact ⟨by rw [show ({ e with position := n } : LeaderboardRow).gender
        = e.gender from rfl, hgen, hg],
      u, hu, by rw [show ({ e with position := n } : LeaderboardRow).user_id
        = e.user_id from rfl, hid], hg⟩
  · intro db eid g v rs hg hfresh hrs
    unfold get_exercise_leaderboard
    rw [show find_exercise_by_id (extend_db db v rs) eid =
      find_exercise_by_id db eid from rfl]
    cases find_exercise_by_id db eid with
    | none => rfl
    | some ex =>
        dsimp only
        have hs : lb_sorted (extend_db db v rs) eid ex g =
            lb_sorted db eid ex g := by
          unfold lb_sorted
          rw [lb_entries_ext db eid ex g v rs hg hfresh hrs]
        rw [hs]
  · intro db uid eid user v rs hfind hvg hfresh hrs
    have huid : user.telegram_id = uid := by
      have hp := List.find?_some hfind
      simpa using hp
    have humem : user ∈ db.users := List.mem_of_find?_eq_some hfind
    have hufresh : uid ≠ v.telegram_id := huid ▸ hfresh user humem
    have hfind2 : find_user_by_id (extend_db db v rs) uid = some user := by
      unfold find_user_by_id at hfind ⊢
      show (db.users ++ [v]).find? _ = _
      rw [List.find?_append, hfind]
      rfl
    have hbest : bestOf (extend_db db v rs) eid uid = bestOf db eid uid := by
      unfold bestOf
      rw [results_for_ext db v rs hrs uid eid hufresh]
    have hld : latestDateOf (extend_db db v rs) eid uid =
        latestDateOf db eid uid := by
      unfold latestDateOf
      rw [results_for_ext db v rs hrs uid eid hufresh]
    unfold get_user_ranking run_user_ranking_queries
    simp only [Bool.false_eq_true, if_false]
    unfold get_user_ranking_body
    rw [show find_exercise_by_id (extend_db db v rs) eid =
      find_exercise_by_id db eid from rfl, hfind2, hfind, hbest, hld]
    cases find_exercise_by_id db eid with
    | none => rfl
    | some ex =>
        dsimp only
        cases bestOf db eid uid with
        | none => rfl
        | some ub =>
            dsimp only
            rw [better_count_ext db eid ex user.gender v rs hvg hfresh hrs ub,
              total_users_count_ext db eid user.gender v rs hvg hfresh hrs]

/-- C8 witness: instantiating C8 on the concrete squat database, its male
leaderboard, and the addition of a fresh female user 9 with a 200 kg squat
result. -/
theorem C8_witness :
    (rowU2.gender = some Gender.male ∧
      ∃ u ∈ dbSquat.users, u.telegram_id = rowU2.user_id ∧
        u.gender = some Gender.male) ∧
    get_exercise_leaderboard (extend_db dbSquat userF9 [resF9]) 2 Gender.male =
      get_exercise_leaderboard dbSquat 2 Gender.male ∧
    get_user_ranking false (extend_db dbSquat userF9 [resF9]) 1 2 =
      get_user_ranking false dbSquat 1 2 :=
  ⟨C8_gender_partition.1 dbSquat 2 Gender.male lbSquatM rowU2
      (by decide) (by decide),
   C8_gender_partition.2.1 dbSquat 2 Gender.male userF9 [resF9]
      (by decide) (by decide) (by decide),
   C8_gender_partition.2.2 dbSquat 1 2 userM1 userF9 [resF9]
      (by decide) (by decide) (by decide) (by decide)⟩

/-- Characterisation of List.max? on rationals: the maximum is a member and
an upper bound. -/
theorem max?_spec {l : List ℚ} {b : ℚ} (h : l.max? = some b) :
    b ∈ l ∧ ∀ v ∈ l, v ≤ b :=
  (@List.max?_eq_some_iff ℚ b _ _ ⟨fun hab hba => le_antisymm hab hba⟩
    (fun a => le_refl a) (fun a c => max_choice a c)
    (fun _ _ _ => max_le_iff) l).mp h

/-- An EXISTS-row-strictly-greater test equals the comparison against the MAX
aggregate of the rows. -/
theorem any_lt_eq_max (rows : List UserProfileResult) (c : ℚ) :
    rows.any (fun r => decide (c < r.result_value)) =
      (match (rows.map (fun r => r.result_value)).max? with
       | some b => decide (c < b)
       | none => false) := by
  cases hm : (rows.map (fun r => r.result_value)).max? with
  | none =>
      cases rows with
      | nil => rfl
      | cons a t => exact absurd hm (by simp [List.max?])
  | some b =>
      obtain ⟨hmem, hle⟩ := max?_spec hm
      show _ = decide (c < b)
      by_cases hcb : c < b
      · rw [decide_eq_true hcb]
        refine List.any_eq_true.mpr ?_
        obtain ⟨r, hr, hrb⟩ := List.mem_map.mp hmem
        exact ⟨r, hr, decide_eq_true (hrb.symm ▸ hcb)⟩
      · rw [decide_eq_false hcb]
        refine List.any_eq_false.mpr (fun r hr => ?_)
        simp only [decide_eq_true_eq]
        intro hcr
        exact hcb (lt_of_lt_of_le hcr (hle _ (List.mem_map_of_mem _ hr)))

/-- For a non-ASAP exercise the better-rows EXISTS test of get_user_ranking
is exactly "this user's best (MAX) value beats c". -/
theorem better_test_eq_beatsVal (db : DB) (eid : Nat) (ex : ProfileExercise)
    (hna : isAsap ex = false) (c : ℚ) (u : User) :
    better_test db eid ex c u = beatsVal db eid c u.telegram_id := by
  unfold better_test beatsVal bestOf
  rw [hna]
  simp only [Bool.false_eq_true, if_false]
  exact any_lt_eq_max _ c

/-- SQL equality against a non-NULL gender is plain equality with some. -/
theorem sqlGenderEq_some (og : Option Gender) (g : Gender) :
    sqlGenderEq og (some g) = decide (og = some g) := by
  cases og with
  | none => rfl
  | some x =>
      by_cases hx : x = g
      · simp [sqlGenderEq, hx]
      · simp [sqlGenderEq, hx]

/-- find? by telegram id returns the member itself when ids are unique. -/
theorem find?_id_of_nodup : ∀ (l : List User),
    (l.map (fun u => u.telegram_id)).Nodup → ∀ u ∈ l,
    l.find? (fun x => decide (x.telegram_id = u.telegram_id)) = some u
  | [], _, u, hu => absurd hu (List.not_mem_nil u)
  | a :: t, hn, u, hu => by
    rw [List.map_cons, List.nodup_cons] at hn
    rcases List.mem_cons.mp hu with rfl | hmem
    · exact List.find?_cons_of_pos _ (by simp)
    · have hne : ¬(a.telegram_id = u.telegram_id) := fun he =>
        hn.1 (he.symm ▸ List.mem_map_of_mem (fun x => x.telegram_id) hmem)
      rw [List.find?_cons_of_neg _ (by simpa using hne)]
      exact find?_id_of_nodup t hn.2 u hmem

/-- find_user_by_id on a unique-id table returns the stored row. -/
theorem find_user_by_id_of_nodup {db : DB}
    (hids : (db.users.map (fun u => u.telegram_id)).Nodup) {u : User}
    (hu : u ∈ db.users) : find_user_by_id db u.telegram_id = some u :=
  find?_id_of_nodup db.users hids u hu

/-- The grouped entries' user ids form a sublist of the stored user ids. -/
theorem entries_ids_sublist (db : DB) (eid : Nat) (ex : ProfileExercise)
    (g : Gender) : ∀ l : List User,
    ((l.filterMap (fun u => if u.gender = some g then lb_entry db eid ex u
        else none)).map (fun en => en.user_id)).Sublist
      (l.map (fun u => u.telegram_id))
  | [] => List.Sublist.refl _
  | u :: t => by
    rw [List.filterMap_cons, List.map_cons]
    cases hfu : (if u.gender = some g then lb_entry db eid ex u else none) with
    | none => exact List.Sublist.cons _ (entries_ids_sublist db eid ex g t)
    | some en =>
        rw [List.map_cons]
        have hid : en.user_id = u.telegram_id := by
          by_cases hg : u.gender = some g
          · rw [if_pos hg] at hfu
            exact (lb_entry_fields hfu).1
          · rw [if_neg hg] at hfu
            cases hfu
        rw [hid]
        exact List.Sublist.cons₂ _ (entries_ids_sublist db eid ex g t)

/-- Unique stored user ids make the grouped entries' user ids unique. -/
theorem lb_entries_ids_nodup (db : DB) (eid : Nat) (ex : ProfileExercise)
    (g : Gender) (hids : (db.users.map (fun u => u.telegram_id)).Nodup) :
    ((lb_entries db eid ex g).map (fun en => en.user_id)).Nodup := by
  unfold lb_entries
  exact (entries_ids_sublist db eid ex g db.users).nodup hids

/-- A user with a MAX value also has a MAX date (same nonempty row set). -/
theorem latestDateOf_of_bestOf {db : DB} {eid uid : Nat} {b : ℚ}
    (h : bestOf db eid uid = some b) :
    ∃ d, latestDateOf db eid uid = some d := by
  unfold bestOf at h
  unfold latestDateOf
  cases hr : results_for db uid eid with
  | nil => rw [hr] at h; cases h
  | cons a t => exact ⟨_, rfl⟩

/-- Counting grouped entries by a predicate on their best value equals
counting the qualifying users whose MAX value satisfies it. -/
theorem countP_lb_entries (db : DB) (eid : Nat) (ex : ProfileExercise)
    (g : Gender) (p : ℚ → Bool) : ∀ l : List User,
    ((l.filterMap (fun u => if u.gender = some g then lb_entry db eid ex u
        else none)).countP (fun en => p en.value)) =
      l.countP (fun u => decide (u.gender = some g) &&
        (match bestOf db eid u.telegram_id with
         | some b => p b
         | none => false))
  | [] => rfl
  | u :: t => by
    rw [List.filterMap_cons, List.countP_cons]
    by_cases hg : u.gender = some g
    · rw [if_pos hg]
      cases hbo : bestOf db eid u.telegram_id with
      | none =>
          have hnone : lb_entry db eid ex u = none := by
            unfold lb_entry
            rw [hbo]
          rw [hnone, countP_lb_entries db eid ex g p t]
          simp [hg, hbo]
      | some b =>
          obtain ⟨d, hd⟩ := latestDateOf_of_bestOf hbo
          have hsome : lb_entry db eid ex u = some
              { position := 0, user_id := u.telegram_id,
                username := u.username, gender := u.gender, level := u.level,
                value := b, unit := ex.unit, latest_date := some d } := by
            unfold lb_entry
            rw [hbo, hd]
          rw [hsome, List.countP_cons, countP_lb_entries db eid ex g p t]
          simp [hg, hbo]
    · rw [if_neg hg, countP_lb_entries db eid ex g p t]
      simp [hg]

/-- The sorted rows of a non-ASAP leaderboard are sorted by value
descending. -/
theorem lb_sorted_sorted_rows (db : DB) (eid : Nat) (ex : ProfileExercise)
    (g : Gender) (hna : isAsap ex = false) :
    List.Sorted (fun a b : LeaderboardRow => b.value ≤ a.value)
      (lb_sorted db eid ex g) := by
  haveI : IsTotal LeaderboardRow (fun a b => b.value ≤ a.value) :=
    ⟨fun a b => le_total b.value a.value⟩
  haveI : IsTrans LeaderboardRow (fun a b => b.value ≤ a.value) :=
    ⟨fun _ _ _ hab hbc => le_trans hbc hab⟩
  unfold lb_sorted
  rw [if_neg (by simp [hna])]
  exact List.sorted_insertionSort _ _

/-- A member of the stamped leaderboard is the i-th sorted row stamped with
position 1 + i. -/
theorem mem_stampPositions_getElem {l : List LeaderboardRow}
    {row : LeaderboardRow} (h : row ∈ stampPositions l) :
    ∃ (i : Nat) (hi : i < l.length), row = { l[i] with position := 1 + i } := by
  unfold stampPositions at h
  obtain ⟨p, hp, hrow⟩ := List.mem_map.mp h
  obtain ⟨i, hl2, hpi⟩ := List.mem_iff_getElem.mp hp
  have hlen : i < l.length := by
    rwa [List.enumFrom_length] at hl2
  refine ⟨i, hlen, ?_⟩
  rw [← hrow, ← hpi, List.getElem_enumFrom]

/-- In a list sorted by value descending, in which no entry of another user
id shares the i-th entry's value and user ids are unique, the number of
entries with a strictly greater value is exactly i. -/
theorem countP_gt_eq_index (s : List LeaderboardRow) (i : Nat)
    (hi : i < s.length) (e : LeaderboardRow) (he : s[i] = e)
    (hsorted : List.Sorted (fun a b => b.value ≤ a.value) s)
    (hnodup : (s.map (fun en => en.user_id)).Nodup)
    (huniq : ∀ en ∈ s, en.user_id ≠ e.user_id → en.value ≠ e.value) :
    s.countP (fun en => decide (e.value < en.value)) = i := by
  have hids : ∀ j (hj : j < s.length), j ≠ i → s[j].user_id ≠ e.user_id := by
    intro j hj hji heq
    have hmapj : (s.map (fun en => en.user_id)).get
        ⟨j, by simpa using hj⟩ =
        (s.map (fun en => en.user_id)).get ⟨i, by simpa using hi⟩ := by
      simp only [List.get_eq_getElem, List.getElem_map]
      rw [he]
      exact heq
    have hfin := (List.Nodup.get_inj_iff hnodup).mp hmapj
    exact hji (by simpa using congrArg Fin.val hfin)
  have hgt : ∀ j (hj : j < s.length), j < i → e.value < s[j].value := by
    intro j hj hji
    have hle : e.value ≤ s[j].value := by
      have hr := @List.Sorted.rel_get_of_lt _ _ _ hsorted ⟨j, hj⟩ ⟨i, hi⟩
        (by exact hji)
      simpa [List.get_eq_getElem, he] using hr
    exact lt_of_le_of_ne hle
      (Ne.symm (huniq s[j] (List.getElem_mem hj)
        (hids j hj (Nat.ne_of_lt hji)) ))
  have hlt : ∀ j (hj : j < s.length), i < j → s[j].value ≤ e.value := by
    intro j hj hji
    have hr := @List.Sorted.rel_get_of_lt _ _ _ hsorted ⟨i, hi⟩ ⟨j, hj⟩
      (by exact hji)
    simpa [List.get_eq_getElem, he] using hr
  have hsplit : s = s.take i ++ s[i] :: s.drop (i + 1) := by
    conv_lhs => rw [← List.take_append_drop i s]
    rw [List.drop_eq_getElem_cons hi]
  have htake : (s.take i).countP (fun en => decide (e.value < en.value)) = i := by
    have hlen : (s.take i).length = i := by
      rw [List.length_take]
      exact Nat.min_eq_left (le_of_lt hi)
    have hall : ∀ a ∈ s.take i,
        (fun en => decide (e.value < en.value)) a = true := by
      intro a ha
      obtain ⟨j, hj, hja⟩ := List.mem_iff_getElem.mp ha
      have hjlt : j < i := by rwa [hlen] at hj
      have hjs : j < s.length := lt_trans hjlt hi
      rw [List.getElem_take] at hja
      rw [← hja]
      exact decide_eq_true (hgt j hjs hjlt)
    rw [List.countP_eq_length.mpr hall, hlen]
  have hdrop : (s.drop (i + 1)).countP
      (fun en => decide (e.value < en.value)) = 0 := by
    refine List.countP_eq_zero.mpr (fun a ha => ?_)
    obtain ⟨k, hk, hka⟩ := List.mem_iff_getElem.mp ha
    have hks : i + 1 + k < s.length := by
      have hk2 := hk
      rw [List.length_drop] at hk2
      omega
    rw [List.getElem_drop] at hka
    simp only [decide_eq_true_eq]
    intro hcon
    rw [← hka] at hcon
    exact absurd hcon (not_lt.mpr (hlt (i + 1 + k) hks (by omega)))
  conv_lhs => rw [hsplit]
  rw [List.countP_append, List.countP_cons, htake, hdrop, he]
  simp

/-- C2 (amended): for a user present in the leaderboard of a non-speed
exercise (unique stored user ids assumed, as the primary key guarantees), the
ranking position equals 1 plus the number of other same-gender users whose
best (MAX) value is strictly greater; and when no other same-gender user
shares this user's best value, it also equals the user's leaderboard
position. -/
theorem C2_ranking_consistent_amended (db : DB) (eid : Nat) (g : Gender)
    (ex : ProfileExercise) (l : List LeaderboardRow) (row : LeaderboardRow)
    (rk : RankingInfo)
    (hids : (db.users.map (fun u => u.telegram_id)).Nodup)
    (hex : find_exercise_by_id db eid = some ex)
    (hna : isAsap ex = false)
    (hl : get_exercise_leaderboard db eid g = some l)
    (hrow : row ∈ l)
    (hrk : get_user_ranking false db row.user_id eid = some rk) :
    rk.position = 1 + (db.users.filter (fun u =>
      decide (u.telegram_id ≠ row.user_id) && decide (u.gender = some g) &&
        beatsVal db eid rk.best_result u.telegram_id)).length ∧
    ((∀ u ∈ db.users, u.telegram_id ≠ row.user_id → u.gender = some g →
        bestOf db eid u.telegram_id ≠ some rk.best_result) →
      rk.position = row.position) := by
  have hl' : l = stampPositions (lb_sorted db eid ex g) := by
    simp only [get_exercise_leaderboard, hex] at hl
    exact (Option.some.inj hl).symm
  subst hl'
  obtain ⟨i, hi, rfl⟩ := mem_stampPositions_getElem hrow
  obtain ⟨u0, hu0, hg0, hentry⟩ := mem_lb_entries
    ((lb_sorted_perm db eid ex g).mem_iff.mp (List.getElem_mem hi))
  obtain ⟨hid0, hgen0, hbest0⟩ := lb_entry_fields hentry
  dsimp only at hrk
  unfold get_user_ranking run_user_ranking_queries at hrk
  simp only [Bool.false_eq_true, if_false] at hrk
  unfold get_user_ranking_body at hrk
  rw [hex] at hrk
  dsimp only at hrk
  rw [hid0, find_user_by_id_of_nodup hids hu0, hbest0] at hrk
  dsimp only at hrk
  obtain rfl := Option.some.inj hrk
  have hcount : better_count db eid ex u0.gender
      (lb_sorted db eid ex g)[i].value =
      (db.users.filter (fun u =>
        decide (u.telegram_id ≠ (lb_sorted db eid ex g)[i].user_id) &&
        decide (u.gender = some g) &&
        beatsVal db eid (lb_sorted db eid ex g)[i].value u.telegram_id)).length := by
    unfold better_count
    congr 1
    refine List.filter_congr (fun u hu => ?_)
    rw [hg0, sqlGenderEq_some,
      better_test_eq_beatsVal db eid ex hna _ u]
    by_cases hidu : u.telegram_id = (lb_sorted db eid ex g)[i].user_id
    · have huu0 : u = u0 := List.inj_on_of_nodup_map hids hu hu0
        (by rw [hidu, hid0])
      subst huu0
      have hbeats : beatsVal db eid (lb_sorted db eid ex g)[i].value
          u.telegram_id = false := by
        unfold beatsVal
        rw [hbest0]
        exact decide_eq_false (lt_irrefl _)
      have hne : decide (u.telegram_id ≠
          (lb_sorted db eid ex g)[i].user_id) = false :=
        decide_eq_false (fun hcon => hcon hidu)
      rw [hbeats, hne]
      simp
    · rw [decide_eq_true hidu]
      simp
  refine ⟨?_, ?_⟩
  · dsimp only
    rw [hcount]
    omega
  · intro huniq
    dsimp only at huniq ⊢
    have huniqS : ∀ en ∈ lb_sorted db eid ex g,
        en.user_id ≠ (lb_sorted db eid ex g)[i].user_id →
        en.value ≠ (lb_sorted db eid ex g)[i].value := by
      intro en hen hne heq
      obtain ⟨u1, hu1, hg1, hentry1⟩ := mem_lb_entries
        ((lb_sorted_perm db eid ex g).mem_iff.mp hen)
      obtain ⟨hid1, -, hbest1⟩ := lb_entry_fields hentry1
      exact (huniq u1 hu1 (by rw [← hid1]; exact hne) hg1)
        (by rw [hbest1, heq])
    have hnodupS : ((lb_sorted db eid ex g).map
        (fun en => en.user_id)).Nodup :=
      ((lb_sorted_perm db eid ex g).map (fun en => en.user_id)).nodup_iff.mpr
        (lb_entries_ids_nodup db eid ex g hids)
    have hcnt : better_count db eid ex u0.gender
        (lb_sorted db eid ex g)[i].value = i := by
      unfold better_count
      rw [← List.countP_eq_length_filter]
      have hA := countP_lb_entries db eid ex g
        (fun b => decide ((lb_sorted db eid ex g)[i].value < b)) db.users
      have hB : db.users.countP (fun u =>
          sqlGenderEq u.gender u0.gender &&
          better_test db eid ex (lb_sorted db eid ex g)[i].value u) =
          db.users.countP (fun u => decide (u.gender = some g) &&
            (match bestOf db eid u.telegram_id with
             | some b => decide ((lb_sorted db eid ex g)[i].value < b)
             | none => false)) := by
        refine List.countP_congr (fun u hu => ?_)
        rw [hg0, sqlGenderEq_some,
          better_test_eq_beatsVal db eid ex hna _ u]
        unfold beatsVal
        exact Iff.rfl
      rw [hB, ← hA]
      show ((lb_entries db eid ex g).countP _) = i
      rw [(lb_sorted_perm db eid ex g).countP_eq
        (fun en => decide ((lb_sorted db eid ex g)[i].value < en.value))
        |>.symm]
      exact countP_gt_eq_index (lb_sorted db eid ex g) i hi _ rfl
        (lb_sorted_sorted_rows db eid ex g hna) hnodupS huniqS
    rw [hcnt]
    omega

/-- C2 witness: on the concrete squat database the ranking of user 1 is
position 2 = 1 + one better male (user 2 with 120 > 100), which matches
leaderboard position 2. -/
theorem C2_ranking_consistent_witness :
    (rkU1.position = 1 + (dbSquat.users.filter (fun u =>
      decide (u.telegram_id ≠ rowU1.user_id) &&
        decide (u.gender = some Gender.male) &&
        beatsVal dbSquat 2 rkU1.best_result u.telegram_id)).length) ∧
    rkU1.position = rowU1.position := by
  have h := C2_ranking_consistent_amended dbSquat 2 Gender.male exSquat
    lbSquatM rowU1 rkU1 (by decide) (by decide) (by decide) (by decide)
    (by decide) (by decide)
  exact ⟨h.1, h.2 (by decide)⟩

end Progress
